import Mathlib

/-!
Verification development for the Bizimatchaitosarel repository.

Part 1 embeds the code that actually exists under src/: the `Pipeline`
stub of src/src/core/pipeline.py and the `ClaudeClient` constructor of
src/src/ai/claude_client.py.

Part 2 models, from the specification's words, the pipeline stage
orchestrator that the specification describes but that is not
implemented anywhere in the source (the source contains only a stub
method returning a "not_implemented" status).  Those definitions carry
doc comments starting with `Modelled from the spec:`.
-/

/-! ## Part 1: code embedded from src/ -/

/-- The dictionary returned by `Pipeline.run` in src/src/core/pipeline.py:
keys "status", "prompt" and "stages" (the latter a dict from stage key to
stage state string). -/
structure RunResult where
  status : String
  prompt : String
  stages : List (String × String)
  deriving DecidableEq, Repr

/-- The `Pipeline` class of src/src/core/pipeline.py: fields `config`
(an arbitrary dict, kept abstract as a type parameter) and `state`. -/
structure Pipeline (α : Type) where
  config : α
  state : String
  deriving DecidableEq, Repr

/-- `Pipeline.__init__`: stores the configuration and sets
`self.state = "initialized"`. -/
def Pipeline.init (config : α) : Pipeline α :=
  { config := config, state := "initialized" }

/-- `Pipeline.run` from src/src/core/pipeline.py lines 27-55: builds and
returns the fixed result dict; it never assigns to `self`, which the
embedding records by returning the pipeline object unchanged alongside
the result. -/
def Pipeline.run (p : Pipeline α) (prompt : String) : RunResult × Pipeline α :=
  ({ status := "not_implemented"
   , prompt := prompt
   , stages :=
      [ ("prd_generation", "pending")
      , ("task_decomposition", "pending")
      , ("code_generation", "pending")
      , ("testing", "pending")
      , ("review", "pending")
      , ("deployment", "pending") ] }, p)

/-- The dictionary returned by `Pipeline.get_status`. -/
structure StatusInfo (α : Type) where
  state : String
  config : α
  deriving DecidableEq, Repr

/-- `Pipeline.get_status`: returns `{"state": self.state, "config": self.config}`. -/
def Pipeline.get_status (p : Pipeline α) : StatusInfo α :=
  { state := p.state, config := p.config }

/-- A sequence of `run` calls on the same pipeline object, threading the
(unchanged) object through. -/
def Pipeline.runMany (p : Pipeline α) (prompts : List String) : Pipeline α :=
  prompts.foldl (fun q s => (q.run s).2) p

/-- Python truthiness of an optional string (`None` and `""` are falsy). -/
def truthy : Option String → Bool
  | none => false
  | some s => !s.isEmpty

/-- Python `a or b` on optional strings: yields `a` when `a` is truthy,
otherwise `b`. -/
def pyOr (a b : Option String) : Option String :=
  if truthy a then a else b

/-- The `ClaudeClient` object of src/src/ai/claude_client.py, keeping
only the `api_key` attribute set by `__init__`. -/
structure ClaudeClient where
  api_key : Option String
  deriving DecidableEq, Repr

/-- `ClaudeClient.__init__` from src/src/ai/claude_client.py lines 16-22:
`self.api_key = api_key or os.getenv("ANTHROPIC_API_KEY")`, then
`if not self.api_key: raise ValueError(...)`.  The environment lookup is
passed in as `envVal` (`none` models an unset variable). -/
def ClaudeClient.init (api_key envVal : Option String) : Except String ClaudeClient :=
  let key := pyOr api_key envVal
  if truthy key then .ok { api_key := key }
  else .error "Anthropic API key is required"

/-- Whether a `ClaudeClient.init` call raised. -/
def isErr : Except String ClaudeClient → Bool
  | .error _ => true
  | .ok _ => false

/-! ## Part 1 theorems -/

/-- C1: for every prompt string, `Pipeline.run` returns a dict whose
"status" field equals "not_implemented", whose "prompt" field equals the
given prompt, and whose "stages" field maps each of the six stage keys
(prd_generation, task_decomposition, code_generation, testing, review,
deployment) to the value "pending". -/
theorem pipeline_run_not_implemented {α : Type} (p : Pipeline α) (prompt : String) :
    ((p.run prompt).1.status = "not_implemented") ∧
    ((p.run prompt).1.prompt = prompt) ∧
    ((p.run prompt).1.stages.lookup "prd_generation" = some "pending") ∧
    ((p.run prompt).1.stages.lookup "task_decomposition" = some "pending") ∧
    ((p.run prompt).1.stages.lookup "code_generation" = some "pending") ∧
    ((p.run prompt).1.stages.lookup "testing" = some "pending") ∧
    ((p.run prompt).1.stages.lookup "review" = some "pending") ∧
    ((p.run prompt).1.stages.lookup "deployment" = some "pending") := by
  refine ⟨rfl, rfl, ?_, ?_, ?_, ?_, ?_, ?_⟩ <;> rfl

/-- C10: `Pipeline.run` leaves the pipeline object's `state` and `config`
fields unchanged: after any sequence of `run` calls on a pipeline
constructed with configuration `c`, `get_status` still returns
`{"state": "initialized", "config": c}`. -/
theorem pipeline_run_frame {α : Type} (c : α) (prompts : List String) :
    ((Pipeline.init c).runMany prompts).get_status
      = { state := "initialized", config := c } := by
  have h : ∀ (p : Pipeline α) (l : List String), p.runMany l = p := by
    intro p l
    induction l generalizing p with
    | nil => rfl
    | cons x xs ih => exact ih p
  rw [h]
  rfl

/-- C9: `ClaudeClient.__init__` raises ValueError iff both the api_key
argument is absent or falsy and the ANTHROPIC_API_KEY environment value
is unset or empty; otherwise it completes with `api_key` set to the
argument when truthy, else to the environment value. -/
theorem claude_client_init_spec (a e : Option String) :
    (isErr (ClaudeClient.init a e) = true ↔ (truthy a = false ∧ truthy e = false)) ∧
    (∀ c, ClaudeClient.init a e = .ok c →
      c.api_key = if truthy a then a else e) := by
  constructor
  · unfold ClaudeClient.init pyOr isErr
    by_cases ha : truthy a
    · simp [ha]
    · by_cases he : truthy e <;> simp [ha, he]
  · intro c hc
    unfold ClaudeClient.init pyOr at hc
    by_cases ha : truthy a
    · simp [ha] at hc ⊢
      rw [← hc]
    · simp [ha] at hc ⊢
      split at hc
      · cases hc; rfl
      · cases hc

/-- Witness for C9 at concrete inputs: a truthy argument wins over an
empty environment value, and two falsy inputs raise. -/
theorem claude_client_init_spec_witness :
    ({ api_key := some "sk-test" : ClaudeClient }.api_key
        = if truthy (some "sk-test") then (some "sk-test") else (some "")) ∧
    (isErr (ClaudeClient.init none (some "")) = true) := by
  refine ⟨?_, ?_⟩
  · exact (claude_client_init_spec (some "sk-test") (some "")).2
      { api_key := some "sk-test" } (by rfl)
  · exact (claude_client_init_spec none (some "")).1.mpr (by constructor <;> rfl)

/-! ## Part 2: the orchestrator modelled from the spec

The specification (spec sections 3-5) describes a pipeline stage
orchestrator that is missing from src/: the source's `Pipeline.run` is a
stub, so the definitions below follow the specification's words. -/

/-- Modelled from the spec: the `StageName` enumeration with its fixed
total order (missing from src/; the six names appear only in a docstring
and the stub's result dict). -/
inductive StageName where
  | PRD_GENERATION
  | TASK_DECOMPOSITION
  | CODE_GENERATION
  | TESTING
  | REVIEW
  | DEPLOYMENT
  deriving DecidableEq, Repr

/-- Position of a stage in the fixed execution order. -/
def StageName.idx : StageName → Nat
  | .PRD_GENERATION => 0
  | .TASK_DECOMPOSITION => 1
  | .CODE_GENERATION => 2
  | .TESTING => 3
  | .REVIEW => 4
  | .DEPLOYMENT => 5

/-- Successor in the fixed stage order (`none` after the last stage). -/
def StageName.next : StageName → Option StageName
  | .PRD_GENERATION => some .TASK_DECOMPOSITION
  | .TASK_DECOMPOSITION => some .CODE_GENERATION
  | .CODE_GENERATION => some .TESTING
  | .TESTING => some .REVIEW
  | .REVIEW => some .DEPLOYMENT
  | .DEPLOYMENT => none

/-- Modelled from the spec: the `StageStatus` enumeration (missing from
src/). -/
inductive StageStatus where
  | PENDING
  | RUNNING
  | SUCCEEDED
  | FAILED
  | SKIPPED
  | AWAITING_APPROVAL
  deriving DecidableEq, Repr

/-- Modelled from the spec: the run-level status enumeration (missing
from src/). -/
inductive OverallStatus where
  | RUNNING
  | PAUSED
  | SUCCEEDED
  | FAILED
  | CANCELLED
  deriving DecidableEq, Repr

/-- Modelled from the spec: the immutable `StageResult` record (missing
from src/): stage, status, opaque output payload, optional error message
and timestamps. -/
structure StageResult where
  stage : StageName
  status : StageStatus
  output : String
  error : Option String
  started_at : Nat
  finished_at : Nat
  deriving DecidableEq, Repr

/-- Modelled from the spec: the frozen per-run configuration snapshot
(missing from src/): retry budget and the optional rollback target for a
rejected approval. -/
structure RunConfig where
  max_retries : Nat
  rollback_stage : Option StageName
  deriving DecidableEq, Repr

/-- Modelled from the spec: the `PipelineRun` aggregate (missing from
src/): run identifier, original prompt, current stage, overall status,
ordered history of stage results and the frozen configuration. -/
structure PipelineRun where
  run_id : Nat
  original_prompt : String
  current_stage : StageName
  overall_status : OverallStatus
  history : List StageResult
  config : RunConfig
  deriving DecidableEq, Repr

/-- Modelled from the spec: the outcome of one `StageExecutor.execute`
call: success with an output payload, a transient `ExecutionError`, a
fatal `PreconditionError`, or the review gate's request for approval. -/
inductive ExecOutcome where
  | success (output : String)
  | executionError (msg : String)
  | preconditionError (msg : String)
  | awaitingApproval
  deriving DecidableEq, Repr

/-- A table of stage executors: each stage's executor consumes the prior
history and produces an outcome (spec section 4.1). -/
def Execs : Type := StageName → List StageResult → ExecOutcome

/-- Number of execution attempts recorded in a history for one stage. -/
def attemptCount (h : List StageResult) (s : StageName) : Nat :=
  (h.filter (fun r => r.stage == s)).length

/-- Modelled from the spec: one iteration of the orchestrator's
`advance` drive loop (spec section 4.2, missing from src/).  For the
run's current stage it invokes the matching executor; on success it
appends a SUCCEEDED result and advances the current stage (or marks the
run SUCCEEDED after the last stage); on `ExecutionError` it appends a
FAILED result and either retries or, once `max_retries` attempts are
exhausted, sets the run FAILED; on `PreconditionError` it sets the run
FAILED immediately with no retry; on a review gate's AWAITING_APPROVAL
it records the result and pauses the run.  Timestamps are drawn from the
history length, the model's logical clock. -/
def driveStep (execs : Execs) (run : PipelineRun) : PipelineRun :=
  if run.overall_status = OverallStatus.RUNNING then
    let s := run.current_stage
    let t := run.history.length
    match execs s run.history with
    | .success out =>
        let r : StageResult :=
          { stage := s, status := .SUCCEEDED, output := out, error := none
          , started_at := t, finished_at := t + 1 }
        match s.next with
        | some s2 => { run with history := run.history ++ [r], current_stage := s2 }
        | none => { run with history := run.history ++ [r], overall_status := .SUCCEEDED }
    | .executionError msg =>
        let r : StageResult :=
          { stage := s, status := .FAILED, output := "", error := some msg
          , started_at := t, finished_at := t + 1 }
        if run.config.max_retries ≤ attemptCount run.history s + 1 then
          { run with history := run.history ++ [r], overall_status := .FAILED }
        else
          { run with history := run.history ++ [r] }
    | .preconditionError msg =>
        let r : StageResult :=
          { stage := s, status := .FAILED, output := "", error := some msg
          , started_at := t, finished_at := t + 1 }
        { run with history := run.history ++ [r], overall_status := .FAILED }
    | .awaitingApproval =>
        let r : StageResult :=
          { stage := s, status := .AWAITING_APPROVAL, output := "", error := none
          , started_at := t, finished_at := t + 1 }
        { run with history := run.history ++ [r], overall_status := .PAUSED }
  else run

/-- Modelled from the spec: the `approve(run_id, decision)` entry point
(spec section 4.2, missing from src/).  Only acts on a PAUSED run: an
approval resumes at the next stage (or completes the run after the last
stage); a rejection rolls back to the configured earlier stage, or marks
the run FAILED when no rollback target is configured. -/
def approve (decision : Bool) (run : PipelineRun) : PipelineRun :=
  if run.overall_status = OverallStatus.PAUSED then
    if decision then
      match run.current_stage.next with
      | some s2 => { run with current_stage := s2, overall_status := .RUNNING }
      | none => { run with overall_status := .SUCCEEDED }
    else
      match run.config.rollback_stage with
      | some t => { run with current_stage := t, overall_status := .RUNNING }
      | none => { run with overall_status := .FAILED }
  else run

/-- Modelled from the spec: the orchestrator's run store and fresh-id
counter (missing from src/). -/
structure Orchestrator where
  runs : List (Nat × PipelineRun)
  next_id : Nat
  deriving DecidableEq, Repr

/-- Modelled from the spec: `run(prompt, config) -> run_id` (spec
section 4.2, missing from src/): creates a `PipelineRun` in RUNNING
status at the first stage with empty history, stores it and returns the
fresh run identifier immediately. -/
def Orchestrator.run (o : Orchestrator) (prompt : String) (cfg : RunConfig) :
    Nat × Orchestrator :=
  let rid := o.next_id
  let r : PipelineRun :=
    { run_id := rid, original_prompt := prompt
    , current_stage := .PRD_GENERATION, overall_status := .RUNNING
    , history := [], config := cfg }
  (rid, { runs := (rid, r) :: o.runs, next_id := rid + 1 })

/-- A freshly created run, as `Orchestrator.run` builds it. -/
def initRun (rid : Nat) (prompt : String) (cfg : RunConfig) : PipelineRun :=
  { run_id := rid, original_prompt := prompt
  , current_stage := .PRD_GENERATION, overall_status := .RUNNING
  , history := [], config := cfg }

/-- One externally observable operation on a run: a drive-loop iteration
or an approval decision. -/
inductive Step where
  | drive
  | approval (decision : Bool)
  deriving DecidableEq, Repr

/-- Apply one operation to a run. -/
def applyStep (execs : Execs) : Step → PipelineRun → PipelineRun
  | .drive, r => driveStep execs r
  | .approval d, r => approve d r

/-- Apply a sequence of operations to a run, in order. -/
def execTrace (execs : Execs) (steps : List Step) (r : PipelineRun) : PipelineRun :=
  steps.foldl (fun q s => applyStep execs s q) r

/-! ### Serialization of PipelineRun (spec section 6, persisted state layout) -/

/-- Stage name rendered as its persisted string. -/
def StageName.toStr : StageName → String
  | .PRD_GENERATION => "PRD_GENERATION"
  | .TASK_DECOMPOSITION => "TASK_DECOMPOSITION"
  | .CODE_GENERATION => "CODE_GENERATION"
  | .TESTING => "TESTING"
  | .REVIEW => "REVIEW"
  | .DEPLOYMENT => "DEPLOYMENT"

/-- Parse a persisted stage name. -/
def StageName.ofStr (s : String) : Option StageName :=
  if s = "PRD_GENERATION" then some .PRD_GENERATION
  else if s = "TASK_DECOMPOSITION" then some .TASK_DECOMPOSITION
  else if s = "CODE_GENERATION" then some .CODE_GENERATION
  else if s = "TESTING" then some .TESTING
  else if s = "REVIEW" then some .REVIEW
  else if s = "DEPLOYMENT" then some .DEPLOYMENT
  else none

/-- Stage status rendered as its persisted string. -/
def StageStatus.toStr : StageStatus → String
  | .PENDING => "PENDING"
  | .RUNNING => "RUNNING"
  | .SUCCEEDED => "SUCCEEDED"
  | .FAILED => "FAILED"
  | .SKIPPED => "SKIPPED"
  | .AWAITING_APPROVAL => "AWAITING_APPROVAL"

/-- Parse a persisted stage status. -/
def StageStatus.ofStr (s : String) : Option StageStatus :=
  if s = "PENDING" then some .PENDING
  else if s = "RUNNING" then some .RUNNING
  else if s = "SUCCEEDED" then some .SUCCEEDED
  else if s = "FAILED" then some .FAILED
  else if s = "SKIPPED" then some .SKIPPED
  else if s = "AWAITING_APPROVAL" then some .AWAITING_APPROVAL
  else none

/-- Run-level status rendered as its persisted string. -/
def OverallStatus.toStr : OverallStatus → String
  | .RUNNING => "RUNNING"
  | .PAUSED => "PAUSED"
  | .SUCCEEDED => "SUCCEEDED"
  | .FAILED => "FAILED"
  | .CANCELLED => "CANCELLED"

/-- Parse a persisted run-level status. -/
def OverallStatus.ofStr (s : String) : Option OverallStatus :=
  if s = "RUNNING" then some .RUNNING
  else if s = "PAUSED" then some .PAUSED
  else if s = "SUCCEEDED" then some .SUCCEEDED
  else if s = "FAILED" then some .FAILED
  else if s = "CANCELLED" then some .CANCELLED
  else none

/-- Modelled from the spec: the persisted structured form of one
`StageResult` (stage name, status, output payload, error, timestamps),
all fields of primitive type. -/
structure SerStageResult where
  stage : String
  status : String
  output : String
  error : Option String
  started_at : Nat
  finished_at : Nat
  deriving DecidableEq, Repr

/-- Serialize one stage result. -/
def serStageResult (r : StageResult) : SerStageResult :=
  { stage := r.stage.toStr, status := r.status.toStr, output := r.output
  , error := r.error, started_at := r.started_at, finished_at := r.finished_at }

/-- Parse one persisted stage result. -/
def deserStageResult (s : SerStageResult) : Option StageResult :=
  match StageName.ofStr s.stage, StageStatus.ofStr s.status with
  | some st, some ss =>
      some { stage := st, status := ss, output := s.output, error := s.error
           , started_at := s.started_at, finished_at := s.finished_at }
  | _, _ => none

/-- Parse a persisted history, failing if any entry fails. -/
def deserHistory : List SerStageResult → Option (List StageResult)
  | [] => some []
  | x :: xs =>
      match deserStageResult x, deserHistory xs with
      | some y, some ys => some (y :: ys)
      | _, _ => none

/-- Modelled from the spec: the persisted structured form of a
`PipelineRun` (spec section 6): run id, prompt, current stage name,
run-level status, serialized history and configuration. -/
structure SerRun where
  run_id : Nat
  original_prompt : String
  current_stage : String
  overall_status : String
  history : List SerStageResult
  max_retries : Nat
  rollback_stage : Option String
  deriving DecidableEq, Repr

/-- Serialize a pipeline run to its persisted structured form. -/
def serializeRun (r : PipelineRun) : SerRun :=
  { run_id := r.run_id, original_prompt := r.original_prompt
  , current_stage := r.current_stage.toStr
  , overall_status := r.overall_status.toStr
  , history := r.history.map serStageResult
  , max_retries := r.config.max_retries
  , rollback_stage := r.config.rollback_stage.map StageName.toStr }

/-- Parse a persisted optional rollback target. -/
def deserRollback : Option String → Option (Option StageName)
  | none => some none
  | some s =>
      match StageName.ofStr s with
      | some t => some (some t)
      | none => none

/-- Reconstruct a pipeline run from its persisted structured form. -/
def deserializeRun (s : SerRun) : Option PipelineRun :=
  match StageName.ofStr s.current_stage, OverallStatus.ofStr s.overall_status,
        deserHistory s.history, deserRollback s.rollback_stage with
  | some cs, some os, some h, some rb =>
      some { run_id := s.run_id, original_prompt := s.original_prompt
           , current_stage := cs, overall_status := os, history := h
           , config := { max_retries := s.max_retries, rollback_stage := rb } }
  | _, _, _, _ => none

/-! ### Helper functions and predicates for the invariants -/

/-- The history's stage indices never decrease from one entry to the next. -/
def histMono (h : List StageResult) : Prop :=
  List.Chain' (fun a b => a.stage.idx ≤ b.stage.idx) h

/-- Stage index of the last history entry (0 for an empty history). -/
def lastIdx (h : List StageResult) : Nat :=
  match h.getLast? with
  | none => 0
  | some e => e.stage.idx

/-- Drive-loop invariant: monotone history whose last entry does not lie
beyond the current stage. -/
def runInv (r : PipelineRun) : Prop :=
  histMono r.history ∧ lastIdx r.history ≤ r.current_stage.idx

/-- Number of history entries with stage status RUNNING. -/
def runningCount (h : List StageResult) : Nat :=
  (h.filter (fun e => e.status == StageStatus.RUNNING)).length

/-! ### Helper lemmas -/

theorem stageName_ofStr_toStr (s : StageName) : StageName.ofStr s.toStr = some s := by
  cases s <;> rfl

theorem stageStatus_ofStr_toStr (s : StageStatus) : StageStatus.ofStr s.toStr = some s := by
  cases s <;> rfl

theorem overallStatus_ofStr_toStr (s : OverallStatus) : OverallStatus.ofStr s.toStr = some s := by
  cases s <;> rfl

theorem deserStageResult_serStageResult (r : StageResult) :
    deserStageResult (serStageResult r) = some r := by
  cases r with
  | mk stage status output error s f =>
      simp [serStageResult, deserStageResult, stageName_ofStr_toStr, stageStatus_ofStr_toStr]

theorem deserHistory_map (h : List StageResult) :
    deserHistory (h.map serStageResult) = some h := by
  induction h with
  | nil => rfl
  | cons x xs ih =>
      simp [deserHistory, deserStageResult_serStageResult, ih]

theorem deserRollback_map (o : Option StageName) :
    deserRollback (o.map StageName.toStr) = some o := by
  cases o with
  | none => rfl
  | some t => simp [deserRollback, stageName_ofStr_toStr]

theorem idx_le_next {s s2 : StageName} (h : s.next = some s2) : s.idx ≤ s2.idx := by
  cases s <;> simp_all [StageName.next] <;> subst h <;> decide

theorem lastIdx_concat (h : List StageResult) (e : StageResult) :
    lastIdx (h ++ [e]) = e.stage.idx := by
  unfold lastIdx
  rw [List.getLast?_concat]

theorem histMono_concat {h : List StageResult} {e : StageResult}
    (hm : histMono h) (hle : lastIdx h ≤ e.stage.idx) :
    histMono (h ++ [e]) := by
  unfold histMono at *
  rw [List.chain'_append]
  refine ⟨hm, List.chain'_singleton _, ?_⟩
  intro x hx y hy
  simp only [List.head?] at hy
  cases hy
  have : lastIdx h = x.stage.idx := by
    unfold lastIdx
    rw [hx]
  omega

/-- Any drive-loop iteration either leaves the run untouched (a run no
longer RUNNING) or appends exactly one new stage result, recorded at the
run's current stage with a terminal (non-RUNNING) status, and moves the
current stage to itself or to its fixed-order successor. -/
theorem driveStep_shape (execs : Execs) (r : PipelineRun) :
    driveStep execs r = r ∨
    ∃ (e : StageResult) (st : OverallStatus) (cur : StageName),
      driveStep execs r =
        { run_id := r.run_id, original_prompt := r.original_prompt
        , current_stage := cur, overall_status := st
        , history := r.history ++ [e], config := r.config } ∧
      e.stage = r.current_stage ∧
      (cur = r.current_stage ∨ r.current_stage.next = some cur) ∧
      e.status ≠ StageStatus.RUNNING := by
  by_cases hrun : r.overall_status = OverallStatus.RUNNING
  · rcases hout : execs r.current_stage r.history with out | msg | msg | _
    · rcases hnext : r.current_stage.next with _ | s2
      · right
        refine ⟨{ stage := r.current_stage, status := .SUCCEEDED, output := out
                , error := none, started_at := r.history.length
                , finished_at := r.history.length + 1 },
                .SUCCEEDED, r.current_stage, ?_, rfl, Or.inl rfl, by simp⟩
        simp [driveStep, hrun, hout, hnext]
      · right
        refine ⟨{ stage := r.current_stage, status := .SUCCEEDED, output := out
                , error := none, started_at := r.history.length
                , finished_at := r.history.length + 1 },
                r.overall_status, s2, ?_, rfl, Or.inr rfl, by simp⟩
        simp [driveStep, hrun, hout, hnext]
    · by_cases hretry : r.config.max_retries ≤ attemptCount r.history r.current_stage + 1
      · right
        refine ⟨{ stage := r.current_stage, status := .FAILED, output := ""
                , error := some msg, started_at := r.history.length
                , finished_at := r.history.length + 1 },
                .FAILED, r.current_stage, ?_, rfl, Or.inl rfl, by simp⟩
        simp [driveStep, hrun, hout, hretry]
      · right
        refine ⟨{ stage := r.current_stage, status := .FAILED, output := ""
                , error := some msg, started_at := r.history.length
                , finished_at := r.history.length + 1 },
                r.overall_status, r.current_stage, ?_, rfl, Or.inl rfl, by simp⟩
        simp [driveStep, hrun, hout, hretry]
    · right
      refine ⟨{ stage := r.current_stage, status := .FAILED, output := ""
              , error := some msg, started_at := r.history.length
              , finished_at := r.history.length + 1 },
              .FAILED, r.current_stage, ?_, rfl, Or.inl rfl, by simp⟩
      simp [driveStep, hrun, hout]
    · right
      refine ⟨{ stage := r.current_stage, status := .AWAITING_APPROVAL, output := ""
              , error := none, started_at := r.history.length
              , finished_at := r.history.length + 1 },
              .PAUSED, r.current_stage, ?_, rfl, Or.inl rfl, by simp⟩
      simp [driveStep, hrun, hout]
  · left
    simp [driveStep, hrun]

theorem approve_history (d : Bool) (r : PipelineRun) :
    (approve d r).history = r.history := by
  unfold approve
  split
  · split
    · split <;> rfl
    · split <;> rfl
  · rfl

theorem approve_keeps_or_advances (r : PipelineRun) :
    (approve true r).current_stage = r.current_stage ∨
    r.current_stage.next = some (approve true r).current_stage := by
  unfold approve
  split
  · rcases hnext : r.current_stage.next with _ | s2
    · left; rfl
    · right; rfl
  · left; rfl

theorem driveStep_inv (execs : Execs) (r : PipelineRun) (h : runInv r) :
    runInv (driveStep execs r) := by
  rcases driveStep_shape execs r with heq | ⟨e, st, cur, heq, hstage, hcur, _⟩
  · rw [heq]; exact h
  · rw [heq]
    constructor
    · exact histMono_concat h.1 (by rw [hstage]; exact h.2)
    · show lastIdx (r.history ++ [e]) ≤ cur.idx
      rw [lastIdx_concat, hstage]
      rcases hcur with hc | hc
      · rw [hc]
      · exact idx_le_next hc

theorem approve_true_inv (r : PipelineRun) (h : runInv r) : runInv (approve true r) := by
  constructor
  · show histMono (approve true r).history
    rw [approve_history]
    exact h.1
  · show lastIdx (approve true r).history ≤ (approve true r).current_stage.idx
    rw [approve_history]
    rcases approve_keeps_or_advances r with hc | hc
    · rw [hc]; exact h.2
    · exact le_trans h.2 (idx_le_next hc)

theorem execTrace_inv (execs : Execs) (steps : List Step) :
    ∀ r : PipelineRun, runInv r → Step.approval false ∉ steps →
      runInv (execTrace execs steps r) := by
  induction steps with
  | nil => intro r h _; exact h
  | cons s ss ih =>
      intro r h hns
      have hs : s ≠ Step.approval false := fun he => hns (he ▸ List.mem_cons_self _ _)
      have hss : Step.approval false ∉ ss := fun hm => hns (List.mem_cons_of_mem _ hm)
      have h2 : runInv (applyStep execs s r) := by
        cases s with
        | drive => exact driveStep_inv execs r h
        | approval d =>
            cases d with
            | true => exact approve_true_inv r h
            | false => exact absurd rfl hs
      exact ih _ h2 hss

theorem attemptCount_concat (h : List StageResult) (e : StageResult) (s : StageName)
    (he : e.stage = s) :
    attemptCount (h ++ [e]) s = attemptCount h s + 1 := by
  unfold attemptCount
  rw [List.filter_append]
  simp [List.filter, he]

theorem runningCount_applyStep (execs : Execs) (s : Step) (r : PipelineRun) :
    runningCount (applyStep execs s r).history = runningCount r.history := by
  cases s with
  | approval d =>
      show runningCount (approve d r).history = _
      rw [approve_history]
  | drive =>
      rcases driveStep_shape execs r with heq | ⟨e, st, cur, heq, _, _, hstat⟩
      · show runningCount (driveStep execs r).history = _
        rw [heq]
      · show runningCount (driveStep execs r).history = _
        rw [heq]
        unfold runningCount
        rw [List.filter_append]
        have hb : (e.status == StageStatus.RUNNING) = false :=
          beq_eq_false_iff_ne.mpr hstat
        simp [List.filter, hb]

/-! ## Part 2 theorems -/

/-- C2: for all prompts, the orchestrator's `run` returns a run
identifier immediately, and the run so created is stored under that
identifier with initial overall status RUNNING and current stage
PRD_GENERATION. -/
theorem orchestrator_run_initial (o : Orchestrator) (prompt : String) (cfg : RunConfig) :
    ∃ r : PipelineRun,
      (o.run prompt cfg).2.runs.lookup (o.run prompt cfg).1 = some r ∧
      r.run_id = (o.run prompt cfg).1 ∧
      r.overall_status = OverallStatus.RUNNING ∧
      r.current_stage = StageName.PRD_GENERATION := by
  refine ⟨initRun o.next_id prompt cfg, ?_, rfl, rfl, rfl⟩
  simp [Orchestrator.run, initRun, List.lookup]

/-- C3: when the current stage's executor signals a `PreconditionError`
on a RUNNING run, one drive-loop iteration records exactly one new
attempt for that stage, sets the run's overall status to FAILED, and the
drive loop performs no further attempt (the next iteration is a no-op:
no retries). -/
theorem precondition_error_fatal (execs : Execs) (r : PipelineRun) (msg : String)
    (h1 : r.overall_status = OverallStatus.RUNNING)
    (h2 : execs r.current_stage r.history = ExecOutcome.preconditionError msg) :
    (driveStep execs r).overall_status = OverallStatus.FAILED ∧
    attemptCount (driveStep execs r).history r.current_stage
      = attemptCount r.history r.current_stage + 1 ∧
    driveStep execs (driveStep execs r) = driveStep execs r := by
  have hstep : driveStep execs r =
      { run_id := r.run_id, original_prompt := r.original_prompt
      , current_stage := r.current_stage, overall_status := .FAILED
      , history := r.history ++ [{ stage := r.current_stage, status := .FAILED
                                 , output := "", error := some msg
                                 , started_at := r.history.length
                                 , finished_at := r.history.length + 1 }]
      , config := r.config } := by
    simp [driveStep, h1, h2]
  refine ⟨?_, ?_, ?_⟩
  · rw [hstep]
  · rw [hstep]
    exact attemptCount_concat _ _ _ rfl
  · rw [hstep]
    simp [driveStep]

/-- An executor table that always signals a `PreconditionError`. -/
def alwaysPre : Execs := fun _ _ => ExecOutcome.preconditionError "missing prerequisite output"

/-- Witness for C3 on a fresh run whose first stage's executor always
signals a `PreconditionError`. -/
theorem precondition_error_fatal_witness :
    (driveStep alwaysPre (initRun 0 "p" { max_retries := 3, rollback_stage := none })).overall_status
        = OverallStatus.FAILED ∧
    attemptCount (driveStep alwaysPre (initRun 0 "p" { max_retries := 3, rollback_stage := none })).history
        (initRun 0 "p" { max_retries := 3, rollback_stage := none }).current_stage
      = attemptCount (initRun 0 "p" { max_retries := 3, rollback_stage := none }).history
          (initRun 0 "p" { max_retries := 3, rollback_stage := none }).current_stage + 1 ∧
    driveStep alwaysPre (driveStep alwaysPre (initRun 0 "p" { max_retries := 3, rollback_stage := none }))
      = driveStep alwaysPre (initRun 0 "p" { max_retries := 3, rollback_stage := none }) :=
  precondition_error_fatal alwaysPre
    (initRun 0 "p" { max_retries := 3, rollback_stage := none })
    "missing prerequisite output" (by rfl) (by rfl)

/-- An executor table whose first stage fails with a transient
`ExecutionError` on the first two attempts and succeeds afterwards. -/
def flakyExecs : Execs := fun s h =>
  if s = StageName.PRD_GENERATION ∧ attemptCount h StageName.PRD_GENERATION < 2 then
    ExecOutcome.executionError "upstream timeout"
  else ExecOutcome.success "ok"

/-- The run of C4's scenario before any drive-loop iteration:
`max_retries = 3`, first stage pending. -/
def c4start : PipelineRun :=
  initRun 0 "Build a todo app" { max_retries := 3, rollback_stage := none }

/-- The run of C4's scenario after three drive-loop iterations. -/
def c4end : PipelineRun :=
  driveStep flakyExecs (driveStep flakyExecs (driveStep flakyExecs c4start))

/-- C4: with `max_retries = 3` and an executor that raises
`ExecutionError` on the first two calls and succeeds on the third, the
run's history holds exactly three attempts for the first stage (two
FAILED, the final one SUCCEEDED) and the run advances to the next stage
in the fixed order, still RUNNING. -/
theorem retry_then_advance :
    c4end.history.length = 3 ∧
    attemptCount c4end.history StageName.PRD_GENERATION = 3 ∧
    (c4end.history.filter (fun e => e.stage == StageName.PRD_GENERATION &&
        e.status == StageStatus.FAILED)).length = 2 ∧
    (c4end.history.getLast?.map (fun e => (e.stage, e.status)))
      = some (StageName.PRD_GENERATION, StageStatus.SUCCEEDED) ∧
    c4end.current_stage = StageName.TASK_DECOMPOSITION ∧
    c4end.overall_status = OverallStatus.RUNNING := by
  refine ⟨rfl, rfl, rfl, rfl, rfl, rfl⟩

/-- C5: along any sequence of drive-loop iterations and approvals that
contains no rejected approval (the only operation the spec allows to
roll a run back to an earlier stage), the history's stage order is
monotonically non-decreasing in the fixed stage order (the same stage
may repeat for retries). -/
theorem history_no_regression (execs : Execs) (rid : Nat) (prompt : String)
    (cfg : RunConfig) (steps : List Step)
    (hns : Step.approval false ∉ steps) :
    histMono (execTrace execs steps (initRun rid prompt cfg)).history :=
  (execTrace_inv execs steps (initRun rid prompt cfg)
    ⟨List.chain'_nil, Nat.zero_le _⟩ hns).1

/-- An executor table that always succeeds. -/
def allOk : Execs := fun _ _ => ExecOutcome.success "ok"

/-- Witness for C5 on a concrete rejection-free trace of two drive-loop
iterations. -/
theorem history_no_regression_witness :
    histMono (execTrace allOk [Step.drive, Step.drive]
      (initRun 0 "Build a todo app" { max_retries := 3, rollback_stage := none })).history :=
  history_no_regression allOk 0 "Build a todo app"
    { max_retries := 3, rollback_stage := none } [Step.drive, Step.drive] (by decide)

/-- C6: for every run and every reachable instant of its execution (any
sequence of drive-loop iterations and approvals from creation), at most
one StageResult in its history has status RUNNING; the drive loop only
ever appends terminal-status results, so no two stages are in flight
concurrently. -/
theorem at_most_one_running (execs : Execs) (steps : List Step) (rid : Nat)
    (prompt : String) (cfg : RunConfig) :
    runningCount (execTrace execs steps (initRun rid prompt cfg)).history ≤ 1 := by
  have key : ∀ (ss : List Step) (r : PipelineRun),
      runningCount (execTrace execs ss r).history = runningCount r.history := by
    intro ss
    induction ss with
    | nil => intro r; rfl
    | cons s ss2 ih =>
        intro r
        calc runningCount (execTrace execs (s :: ss2) r).history
            = runningCount (applyStep execs s r).history := ih (applyStep execs s r)
          _ = runningCount r.history := runningCount_applyStep execs s r
  rw [key]
  exact Nat.zero_le _

/-- C7: serializing a PipelineRun to its persisted structured form and
deserializing yields an identical object, and stage executions (retries
included) only ever append new StageResult entries: previous attempts'
entries are never mutated, and approvals never touch the history. -/
theorem run_roundtrip_history_append_only :
    (∀ r : PipelineRun, deserializeRun (serializeRun r) = some r) ∧
    (∀ (execs : Execs) (r : PipelineRun),
      ∃ t, (driveStep execs r).history = r.history ++ t) ∧
    (∀ (d : Bool) (r : PipelineRun), (approve d r).history = r.history) := by
  refine ⟨?_, ?_, ?_⟩
  · intro r
    cases r with
    | mk rid prompt cs os h cfg =>
        cases cfg with
        | mk mr rb =>
            simp [serializeRun, deserializeRun, stageName_ofStr_toStr,
              overallStatus_ofStr_toStr, deserHistory_map, deserRollback_map]
  · intro execs r
    rcases driveStep_shape execs r with heq | ⟨e, st, cur, heq, _, _, _⟩
    · exact ⟨[], by rw [heq, List.append_nil]⟩
    · exact ⟨[e], by rw [heq]⟩
  · exact approve_history

/-- Modelled from the spec: the GET /runs/run_id handler of the HTTP
boundary (spec section 6, missing from src/main.py, which defines no
/runs route): responds 200 with the stored run when the identifier names
a known run, 404 otherwise. -/
def getRunEndpoint (store : List (Nat × PipelineRun)) (rid : Nat) :
    Nat × Option PipelineRun :=
  match store.lookup rid with
  | some r => (200, some r)
  | none => (404, none)

/-- C8: every GET /runs/run_id request is answered 200 together with the
run's current state when run_id names a known run, and 404 when run_id
is unknown. -/
theorem get_run_endpoint_spec (store : List (Nat × PipelineRun)) (rid : Nat) :
    (∀ r, store.lookup rid = some r → getRunEndpoint store rid = (200, some r)) ∧
    (store.lookup rid = none → getRunEndpoint store rid = (404, none)) := by
  constructor
  · intro r h
    simp [getRunEndpoint, h]
  · intro h
    simp [getRunEndpoint, h]

/-- A concrete stored run for the C8 witness. -/
def demoRun : PipelineRun :=
  initRun 7 "Build a todo app" { max_retries := 3, rollback_stage := none }

/-- Witness for C8 on a one-run store: the known identifier gets 200
with the run, an unknown identifier gets 404. -/
theorem get_run_endpoint_spec_witness :
    getRunEndpoint [(7, demoRun)] 7 = (200, some demoRun) ∧
    getRunEndpoint [(7, demoRun)] 8 = (404, none) :=
  ⟨(get_run_endpoint_spec [(7, demoRun)] 7).1 demoRun (by rfl),
   (get_run_endpoint_spec [(7, demoRun)] 8).2 (by rfl)⟩
